import Mathlib

/-!
Shallow embedding of `server/server.go` from droslean/thyraNew: the
connection-admission layer of an ssh-reachable multi-user game.  Strings are
modelled as `List Char` (Go strings are byte sequences; all the strings the
claims touch are compared rune-wise), byte buffers as `List Nat`, channels of
inbound values as lists (the values received before the channel closes), and
the side effects of a handler as an explicit trace.  A Go runtime panic is
modelled as an explicit outcome (`Option`/`panicked` below), never as a value.
-/

/-- Terminal dimensions, embedding the `resize` struct (width, height as uint32). -/
structure resize where
  width : Nat
  height : Nat
deriving Repr, DecidableEq

/-- Big-endian 32-bit read at offset `off`, embedding `binary.BigEndian.Uint32(b[off:])`
for byte buffers (entries < 256 in any real buffer). -/
def uint32BE (b : List Nat) (off : Nat) : Nat :=
  ((b.getD off 0 * 256 + b.getD (off + 1) 0) * 256 + b.getD (off + 2) 0) * 256
    + b.getD (off + 3) 0

/-- Embeds `parseDims` (server.go:190-203): buffers shorter than 8 bytes decode
to the zero resize; otherwise the first two big-endian uint32s are read. -/
def parseDims (b : List Nat) : resize :=
  if b.length < 8 then
    { width := 0, height := 0 }
  else
    { width := uint32BE b 0, height := uint32BE b 4 }

/-- A Go `\w` word character: `[0-9A-Za-z_]` (Go regexp character classes are
ASCII unless Unicode classes are requested).  `filtername = regexp.MustCompile` of
the complement class deletes exactly the characters failing this predicate. -/
def isWordChar (c : Char) : Bool :=
  (48 ≤ c.toNat && c.toNat ≤ 57) || (65 ≤ c.toNat && c.toNat ≤ 90)
    || (97 ≤ c.toNat && c.toNat ≤ 122) || (c.toNat == 95)

/-- Number of bytes of the UTF-8 encoding of a code point, used because Go's
`len` on a string counts bytes. -/
def utf8CharLen (c : Char) : Nat :=
  if c.toNat < 128 then 1
  else if c.toNat < 2048 then 2
  else if c.toNat < 65536 then 3
  else 4

/-- Go `len` of a string given as its code points: total UTF-8 byte count. -/
def byteLen (s : List Char) : Nat :=
  (s.map utf8CharLen).sum

/-- Embeds `filtername.ReplaceAllString(sshName, "")` (server.go:103): every
non-word character is deleted. -/
def sanitize (s : List Char) : List Char :=
  s.filter isWordChar

/-- The fixed display-name bound (server.go:105). -/
def maxlen : Nat := 100

/-- Embeds server.go:103-108: sanitize, then if the byte length exceeds
`maxlen` keep only the first `maxlen` runes (`string([]rune(name)[:maxlen])`). -/
def sanitizeName (s : List Char) : List Char :=
  let name := sanitize s
  if maxlen < byteLen name then name.take maxlen else name

/-- Embeds `fmt.Sprintf("player-%d", id)` (server.go:143). -/
def defaultName (id : Nat) : List Char :=
  ("player-" ++ toString id).toList

/-- The request type strings dispatched on in server.go:165-181. -/
def shellT : List Char := "shell".toList

def ptyReqT : List Char := "pty-req".toList

def windowChangeT : List Char := "window-change".toList

def sessionT : List Char := "session".toList

/-- A channel-level request as delivered by the ssh library: a type string and
a byte payload. -/
structure Request where
  reqType : List Char
  payload : List Nat
deriving Repr, DecidableEq

/-- One observable side effect of the per-connection handler. -/
inductive Effect where
  | discardGlobalReqs
  | rejectProhibited (chanType : List Char)
  | rejectUnknownType (chanType : List Char)
  | closeConn
  | writeBytes (msg : List Char)
  | registerPlayer (name : List Char)
  | sendResize (r : resize)
  | reply (reqType : List Char) (ok : Bool)
  | publishPlayer (name : List Char)
deriving Repr, DecidableEq

/-- Embeds one iteration of the request loop (server.go:162-184).  `none`
models a runtime panic: for a `pty-req`, `r.Payload[3]` is an out-of-range
index when the payload has fewer than 4 bytes.  `strlen := r.Payload[3]` has
Go type `byte`, so the slice index `strlen+4` in `r.Payload[strlen+4:]` is
computed in uint8 arithmetic and wraps mod 256; the slice is out of range —
a panic — exactly when that wrapped index exceeds the payload length.  A
`window-change` request `continue`s without replying; every other arm falls
through to `r.Reply(ok, nil)`. -/
def handleRequest (r : Request) : Option (List Effect) :=
  if r.reqType = shellT then
    some [Effect.reply r.reqType (r.payload.length == 0)]
  else if r.reqType = ptyReqT then
    match r.payload.get? 3 with
    | none => none
    | some strlen =>
      if (strlen + 4) % 256 ≤ r.payload.length then
        some [Effect.sendResize (parseDims (r.payload.drop ((strlen + 4) % 256))),
              Effect.reply r.reqType true]
      else none
  else if r.reqType = windowChangeT then
    some [Effect.sendResize (parseDims r.payload)]
  else
    some [Effect.reply r.reqType false]

/-- Result of draining the whole request queue: either the loop survived every
request, or a request panicked the dispatcher goroutine; in both cases the
effects emitted before the end are recorded in order. -/
inductive DispatchResult where
  | finished (effects : List Effect)
  | panicked (effects : List Effect)
deriving Repr, DecidableEq

/-- Embeds the dispatcher goroutine (server.go:161-185) over the list of
requests received before the queue closes. -/
def dispatch : List Request → DispatchResult
  | [] => DispatchResult.finished []
  | r :: rs =>
    match handleRequest r with
    | none => DispatchResult.panicked []
    | some es =>
      match dispatch rs with
      | DispatchResult.finished tail => DispatchResult.finished (es ++ tail)
      | DispatchResult.panicked tail => DispatchResult.panicked (es ++ tail)

/-- The emitted effects of a dispatch run, panicked or not. -/
def dispatchEffects : DispatchResult → List Effect
  | DispatchResult.finished es => es
  | DispatchResult.panicked es => es

/-- The replies among a trace, in order, as (request type, ok) pairs. -/
def replyEffects (es : List Effect) : List (List Char × Bool) :=
  es.filterMap fun e =>
    match e with
    | Effect.reply t ok => some (t, ok)
    | _ => none

/-- The ok-flag the request loop computes for a request it replies to:
`ok := false`, set true for an empty-payload `shell` and always for a
`pty-req`. -/
def replyVal (r : Request) : Bool :=
  if r.reqType = shellT then r.payload.length == 0
  else if r.reqType = ptyReqT then true
  else false

/-- A `pty-req` payload is well-formed for the loop's indexing when byte 3
exists and the wrapped skip offset `(strlen+4) mod 256` — the slice index is
byte arithmetic in the source — stays within the payload; any other request
type never panics. -/
def ptyWellFormed (r : Request) : Bool :=
  if r.reqType = ptyReqT then
    match r.payload.get? 3 with
    | none => false
    | some strlen => (strlen + 4) % 256 ≤ r.payload.length
  else true

/-- One logical-channel offer as seen by `handle`: its declared type string. -/
structure ChannelOffer where
  chanType : List Char
deriving Repr, DecidableEq

/-- The inputs one inbound tcp connection supplies to `handle`, as resolved by
the ssh library: whether the handshake succeeded; the claimed username and the
md5-hex fingerprint recorded by the public-key callback (`none` when no key was
presented); the peer IP (host part of the remote address); the channel offers
received before the offer stream closes; whether `c.Accept()` succeeds; and the
channel-level requests received before the request queue closes. -/
structure ConnInput where
  handshakeOk : Bool
  sshName : List Char
  keyHash : Option (List Char)
  remoteIP : List Char
  offers : List ChannelOffer
  acceptOk : Bool
  requests : List Request
deriving Repr, DecidableEq

/-- Embeds the `Player` resulting from `NewPlayer(id, sshName, name, hash, conn)`
(server.go:152): the allocated id, the raw claimed name, the resolved display
name, and the fingerprint string.  The conn handle and resize queue are I/O
objects carried outside the state. -/
structure Player where
  id : Nat
  sshName : List Char
  name : List Char
  hash : List Char
deriving Repr, DecidableEq

/-- The server state the claims touch, embedding the `Server` struct
(server.go:24-34): the listening port, the identity pool (the ids available to
non-blocking draws, in arrival order), whether the `newPlayers` hand-off
channel was ever made (a Go channel field left unassigned is nil), and the
`onlinePlayers` registry as an association list with the newest binding first
(Go map assignment overwrites the key, and lookups here read the newest
binding). -/
structure Server where
  port : Nat
  idPool : List Nat
  newPlayersInit : Bool
  onlinePlayers : List (List Char × Player)
deriving Repr, DecidableEq

/-- Embeds `NewServer` (server.go:36-60): the struct literal sets the port, the
id pool, an empty `onlinePlayers` map, `lines = 1` and a fresh `Events`
channel — but the `newPlayers: make(chan *Player)` line is commented out
(server.go:44), so that field stays nil.  Key loading and interface-address
advertisement are I/O against external collaborators carrying no state the
claims touch. -/
def NewServer (port : Nat) (idPool : List Nat) : Server :=
  { port := port, idPool := idPool, newPlayersInit := false, onlinePlayers := [] }

/-- Embeds the non-blocking draw (server.go:130-134): `id := ID(0)` then a
`select` with a `default` arm, so an empty pool leaves the sentinel 0. -/
def drawId (pool : List Nat) : Nat :=
  pool.headD 0

/-- The "game is full" notice (server.go:137). -/
def fullMsg : List Char := "This game is full.\r\n".toList

/-- How one run of `handle` ended. -/
inductive Outcome where
  | handshakeFailed
  | nilChannelPanic
  | rejectedNonSession
  | acceptFailed
  | gameFull
  | blockedOnPublish
  | published
deriving Repr, DecidableEq

/-- What one run of `handle` did: how it ended, the sequential effects of the
main flow in order, the effects of the channel-rejection goroutine it spawned,
the request list handed to the dispatcher goroutine (`none` when admission
never happened), the final `onlinePlayers` registry, and the channels it
accepted. -/
structure HandleResult where
  outcome : Outcome
  effects : List Effect
  rejectorEffects : List Effect
  dispatcherReqs : Option (List Request)
  registry : List (List Char × Player)
  accepted : List ChannelOffer
deriving Repr, DecidableEq

/-- Embeds `handle` (server.go:79-187) step by step.  A failed handshake logs
and returns (line 96-99).  Otherwise global requests are discarded (101), the
name sanitized and trimmed (103-108), and the first channel offer received
(110): when the offer stream closed with no offer the receive yields a nil
interface and `c.ChannelType()` on line 118 dereferences it — a panic.  The
spawned goroutine (112-116) rejects every remaining offer with
`ssh.Prohibited` whatever its type.  A non-"session" first channel is rejected
with `ssh.UnknownChannelType` and the whole connection closed (117-122).  A
failed `Accept` closes the connection (123-128).  The id draw is non-blocking
(130-134); sentinel 0 writes the full-game notice and closes (136-140).
Otherwise the empty name falls back to `player-<id>` (142-144), a missing key
fingerprint falls back to the peer IP (146-150), the player is registered
under its name (153), the dispatcher goroutine is handed the request queue
(161-185), and finally `s.newPlayers <- p` (186) publishes the player — a send
that blocks forever when `newPlayers` was never made. -/
def handle (s : Server) (c : ConnInput) : HandleResult :=
  if c.handshakeOk = false then
    { outcome := Outcome.handshakeFailed, effects := [], rejectorEffects := [],
      dispatcherReqs := none, registry := s.onlinePlayers, accepted := [] }
  else
    let name0 := sanitizeName c.sshName
    let rej := (c.offers.drop 1).map fun o => Effect.rejectProhibited o.chanType
    match c.offers with
    | [] =>
      { outcome := Outcome.nilChannelPanic, effects := [Effect.discardGlobalReqs],
        rejectorEffects := rej, dispatcherReqs := none,
        registry := s.onlinePlayers, accepted := [] }
    | first :: _ =>
      if first.chanType ≠ sessionT then
        { outcome := Outcome.rejectedNonSession,
          effects := [Effect.discardGlobalReqs,
                      Effect.rejectUnknownType first.chanType, Effect.closeConn],
          rejectorEffects := rej, dispatcherReqs := none,
          registry := s.onlinePlayers, accepted := [] }
      else if c.acceptOk = false then
        { outcome := Outcome.acceptFailed,
          effects := [Effect.discardGlobalReqs, Effect.closeConn],
          rejectorEffects := rej, dispatcherReqs := none,
          registry := s.onlinePlayers, accepted := [] }
      else
        let id := drawId s.idPool
        if id = 0 then
          { outcome := Outcome.gameFull,
            effects := [Effect.discardGlobalReqs, Effect.writeBytes fullMsg,
                        Effect.closeConn],
            rejectorEffects := rej, dispatcherReqs := none,
            registry := s.onlinePlayers, accepted := [first] }
        else
          let nm := if name0 = [] then defaultName id else name0
          let hash :=
            match c.keyHash with
            | some h => h
            | none => c.remoteIP
          let p : Player :=
            { id := id, sshName := c.sshName, name := nm, hash := hash }
          if s.newPlayersInit then
            { outcome := Outcome.published,
              effects := [Effect.discardGlobalReqs, Effect.registerPlayer nm,
                          Effect.publishPlayer nm],
              rejectorEffects := rej, dispatcherReqs := some c.requests,
              registry := (nm, p) :: s.onlinePlayers, accepted := [first] }
          else
            { outcome := Outcome.blockedOnPublish,
              effects := [Effect.discardGlobalReqs, Effect.registerPlayer nm],
              rejectorEffects := rej, dispatcherReqs := some c.requests,
              registry := (nm, p) :: s.onlinePlayers, accepted := [first] }

/-! ### Helper lemmas -/

/-- Every word character is ASCII, so its UTF-8 encoding is one byte. -/
theorem word_char_utf8_one (c : Char) (h : isWordChar c = true) :
    utf8CharLen c = 1 := by
  simp only [isWordChar, Bool.or_eq_true, Bool.and_eq_true, decide_eq_true_eq,
    beq_iff_eq] at h
  have hc : c.toNat < 128 := by omega
  simp [utf8CharLen, hc]

/-- On an all-word string the Go byte length equals the code-point count. -/
theorem byteLen_words (l : List Char) (h : ∀ c ∈ l, isWordChar c = true) :
    byteLen l = l.length := by
  induction l with
  | nil => rfl
  | cons a t ih =>
    have ha := h a (List.mem_cons_self a t)
    have ht : ∀ c ∈ t, isWordChar c = true :=
      fun c hc => h c (List.mem_cons_of_mem _ hc)
    simp only [byteLen, List.map_cons, List.sum_cons, List.length_cons] at *
    rw [word_char_utf8_one a ha, ih ht]
    omega

/-- The `pty-req` arm of the request loop on a payload long enough for both
the byte-3 index and the slice at the wrapped offset `(strlen+4) mod 256`. -/
theorem handleRequest_pty_eq (r : Request) (h : r.reqType = ptyReqT)
    (strlen : Nat) (h3 : r.payload.get? 3 = some strlen)
    (h4 : (strlen + 4) % 256 ≤ r.payload.length) :
    handleRequest r =
      some [Effect.sendResize (parseDims (r.payload.drop ((strlen + 4) % 256))),
            Effect.reply ptyReqT true] := by
  have hns : ¬ (r.reqType = shellT) := by rw [h]; decide
  unfold handleRequest
  rw [if_neg hns, if_pos h, h3, h]
  simp [h4]

/-- The four dispatched request-type strings are pairwise distinct. -/
theorem shellT_ne_windowT : ¬ (shellT = windowChangeT) := by decide

theorem ptyT_ne_shellT : ¬ (ptyReqT = shellT) := by decide

theorem ptyT_ne_windowT : ¬ (ptyReqT = windowChangeT) := by decide

theorem windowT_ne_shellT : ¬ (windowChangeT = shellT) := by decide

theorem windowT_ne_ptyT : ¬ (windowChangeT = ptyReqT) := by decide

/-- A request whose pty indexing is well-formed never panics the loop and
produces exactly one reply unless it is a `window-change`, which produces
none. -/
theorem handleRequest_wellformed (r : Request) (h : ptyWellFormed r = true) :
    ∃ es, handleRequest r = some es ∧
      replyEffects es =
        (if r.reqType = windowChangeT then [] else [(r.reqType, replyVal r)]) := by
  by_cases h1 : r.reqType = shellT
  · refine ⟨[Effect.reply r.reqType (r.payload.length == 0)], ?_, ?_⟩
    · simp [handleRequest, h1]
    · simp [replyEffects, replyVal, h1, shellT_ne_windowT]
  · by_cases h2 : r.reqType = ptyReqT
    · unfold ptyWellFormed at h
      rw [if_pos h2] at h
      cases hg : r.payload.get? 3 with
      | none => rw [hg] at h; simp at h
      | some strlen =>
        rw [hg] at h
        simp only [decide_eq_true_eq] at h
        refine ⟨[Effect.sendResize (parseDims (r.payload.drop ((strlen + 4) % 256))),
                 Effect.reply ptyReqT true],
                handleRequest_pty_eq r h2 strlen hg h, ?_⟩
        simp [replyEffects, replyVal, h1, h2, ptyT_ne_shellT, ptyT_ne_windowT]
    · by_cases h3 : r.reqType = windowChangeT
      · refine ⟨[Effect.sendResize (parseDims r.payload)], ?_, ?_⟩
        · simp [handleRequest, h1, h2, h3, windowT_ne_shellT, windowT_ne_ptyT]
        · simp [replyEffects, h3]
      · refine ⟨[Effect.reply r.reqType false], ?_, ?_⟩
        · simp [handleRequest, h1, h2, h3]
        · simp [replyEffects, replyVal, h1, h2, h3]

/-- The rejection goroutine rejects, with the prohibited reason, exactly the
offers after the first, in order, whatever types they declare. -/
theorem handle_rejector (s : Server) (c : ConnInput) (h : c.handshakeOk = true) :
    (handle s c).rejectorEffects =
      (c.offers.drop 1).map fun o => Effect.rejectProhibited o.chanType := by
  obtain ⟨hs, nm, kh, ip, offers, aok, reqs⟩ := c
  replace h : hs = true := h
  subst h
  cases offers with
  | nil => rfl
  | cons first rest =>
    simp only [handle]
    split_ifs <;> simp_all

/-- No branch of `handle` ever accepts more than one channel. -/
theorem handle_accepted_le (s : Server) (c : ConnInput) :
    (handle s c).accepted.length ≤ 1 := by
  obtain ⟨hs, nm, kh, ip, offers, aok, reqs⟩ := c
  cases hs with
  | false => simp [handle]
  | true =>
    cases offers with
    | nil => simp [handle]
    | cons first rest =>
      simp only [handle]
      split_ifs <;> simp_all

/-- Zeta-reduced form of `sanitizeName`. -/
theorem sanitizeName_eq (s : List Char) :
    sanitizeName s =
      if maxlen < byteLen (sanitize s) then (sanitize s).take maxlen
      else sanitize s := rfl

/-! ### Concrete inputs used by witnesses and counterexamples -/

def execT : List Char := "exec".toList

def directT : List Char := "direct-tcpip".toList

def ptyWitnessReq : Request :=
  { reqType := ptyReqT, payload := [0, 0, 0, 0, 0, 0, 0, 80, 0, 0, 0, 24] }

def wReqs : List Request :=
  [ { reqType := shellT, payload := [] },
    ptyWitnessReq,
    { reqType := windowChangeT, payload := [] },
    { reqType := execT, payload := [1] } ]

def wServer : Server := NewServer 2222 [7]

def emptyPoolServer : Server := NewServer 2222 []

def wConn : ConnInput :=
  { handshakeOk := true, sshName := "Bob!!".toList,
    keyHash := some "0f343b0931126a20f133d67c2b018a3b".toList,
    remoteIP := "203.0.113.5".toList,
    offers := [ { chanType := sessionT }, { chanType := sessionT },
                { chanType := directT } ],
    acceptOk := true, requests := [] }

def sessConn : ConnInput :=
  { handshakeOk := true, sshName := "Bob!!".toList, keyHash := none,
    remoteIP := "203.0.113.5".toList, offers := [ { chanType := sessionT } ],
    acceptOk := true, requests := [] }

def nonSessConn : ConnInput :=
  { handshakeOk := true, sshName := [], keyHash := none, remoteIP := [],
    offers := [ { chanType := directT } ], acceptOk := true, requests := [] }

def zeroOfferConn : ConnInput :=
  { handshakeOk := true, sshName := [], keyHash := none, remoteIP := [],
    offers := [], acceptOk := true, requests := [] }

def bobConn : ConnInput :=
  { handshakeOk := true, sshName := "Bob!!".toList,
    keyHash := some "0f343b0931126a20f133d67c2b018a3b".toList,
    remoteIP := "203.0.113.5".toList, offers := [ { chanType := sessionT } ],
    acceptOk := true, requests := [] }

/-! ### Claims -/

/-- C2: for every client-supplied username, the sanitize-then-truncate step is
total, yields only word characters, and its length in code points never
exceeds 100. -/
theorem sanitized_name_word_chars_and_bounded (s : List Char) :
    (sanitizeName s).all isWordChar = true ∧ (sanitizeName s).length ≤ 100 := by
  have hw : ∀ c ∈ sanitize s, isWordChar c = true := fun c hc =>
    (List.mem_filter.mp hc).2
  have hbl : byteLen (sanitize s) = (sanitize s).length := byteLen_words _ hw
  rw [sanitizeName_eq]
  by_cases hlen : maxlen < byteLen (sanitize s)
  · rw [if_pos hlen]
    constructor
    · rw [List.all_eq_true]
      exact fun c hc => hw c (List.take_subset _ _ hc)
    · have hh := List.length_take_le maxlen (sanitize s)
      simp only [maxlen] at hh
      exact hh
  · rw [if_neg hlen]
    constructor
    · rw [List.all_eq_true]
      exact hw
    · have hle : byteLen (sanitize s) ≤ maxlen := Nat.not_lt.mp hlen
      rw [hbl] at hle
      simpa [maxlen] using hle

/-- C5: resize-payload decoding is total: any buffer shorter than 8 bytes
decodes to width 0, height 0; on a buffer of 8 or more bytes the first four
bytes big-endian are the width and the next four the height, so
`00 00 00 50 00 00 00 18` decodes to 80 x 24. -/
theorem parseDims_total_spec (b : List Nat) :
    (b.length < 8 → parseDims b = { width := 0, height := 0 }) ∧
    (8 ≤ b.length → parseDims b =
      { width := ((b.getD 0 0 * 256 + b.getD 1 0) * 256 + b.getD 2 0) * 256
                   + b.getD 3 0,
        height := ((b.getD 4 0 * 256 + b.getD 5 0) * 256 + b.getD 6 0) * 256
                   + b.getD 7 0 }) ∧
    parseDims [0, 0, 0, 80, 0, 0, 0, 24] = { width := 80, height := 24 } := by
  refine ⟨fun h => ?_, fun h => ?_, by decide⟩
  · simp [parseDims, h]
  · simp [parseDims, Nat.not_lt.mpr h, uint32BE]

/-- Witness for C5 at a 3-byte and at the canonical 8-byte buffer. -/
theorem parseDims_total_spec_witness :
    parseDims [1, 2, 3] = { width := 0, height := 0 } ∧
    parseDims [0, 0, 0, 80, 0, 0, 0, 24] = { width := 80, height := 24 } :=
  ⟨(parseDims_total_spec [1, 2, 3]).1 (by decide),
   (parseDims_total_spec []).2.2⟩

/-- C8: a shell-start request with an empty payload is accepted, one with a
non-empty payload (an explicit command) is declined. -/
theorem shell_start_reply_ok_iff_empty (r : Request) (h : r.reqType = shellT) :
    (r.payload = [] → handleRequest r = some [Effect.reply shellT true]) ∧
    (r.payload ≠ [] → handleRequest r = some [Effect.reply shellT false]) := by
  constructor
  · intro hp
    simp [handleRequest, h, hp]
  · intro hp
    have hb : (r.payload.length == 0) = false := by
      simp [List.length_eq_zero, hp]
    simp [handleRequest, h, hb]

/-- Witness for C8 on an empty and a one-byte payload. -/
theorem shell_start_reply_ok_iff_empty_witness :
    handleRequest { reqType := shellT, payload := [] } =
      some [Effect.reply shellT true] ∧
    handleRequest { reqType := shellT, payload := [65] } =
      some [Effect.reply shellT false] :=
  ⟨(shell_start_reply_ok_iff_empty { reqType := shellT, payload := [] } rfl).1 rfl,
   (shell_start_reply_ok_iff_empty { reqType := shellT, payload := [65] } rfl).2
     (by decide)⟩

/-- C3 counterexample: a pty-allocate request whose payload is empty does not
degrade silently — the loop's `r.Payload[3]` index is out of range, a panic
(`none`), so no acknowledgement and no Resize Event are produced. -/
theorem ptyreq_short_payload_panics :
    handleRequest { reqType := ptyReqT, payload := [] } = none := rfl

/-- C3 amended: for every pty-allocate request whose payload reaches byte 3
and whose wrapped skip offset `(payload[3] + 4) mod 256` — the slice index is
computed in byte arithmetic — stays within the payload, the dispatcher
acknowledges the request and forwards the resize decoded from the segment
starting at that offset; a segment shorter than 8 bytes degrades to the zero
resize inside `parseDims`.  A payload shorter than 4 bytes, or one shorter
than the wrapped offset, panics the loop instead. -/
theorem ptyreq_ack_forwards_trailing_dims (r : Request) (h : r.reqType = ptyReqT)
    (strlen : Nat) (h3 : r.payload.get? 3 = some strlen)
    (h4 : (strlen + 4) % 256 ≤ r.payload.length) :
    handleRequest r =
      some [Effect.sendResize (parseDims (r.payload.drop ((strlen + 4) % 256))),
            Effect.reply ptyReqT true] :=
  handleRequest_pty_eq r h strlen h3 h4

/-- A 12-byte pty-req payload whose byte 3 is 255: the byte sum 255+4 wraps to
3, so the loop slices from index 3 and does not panic. -/
def ptyWrapReq : Request :=
  { reqType := ptyReqT, payload := [0, 0, 0, 255, 0, 0, 0, 80, 0, 0, 0, 24] }

/-- Witness for C3's amended theorem on a realistic 12-byte payload and on the
wrapping payload with byte 3 equal to 255. -/
theorem ptyreq_ack_forwards_trailing_dims_witness :
    handleRequest ptyWitnessReq =
      some [Effect.sendResize { width := 80, height := 24 },
            Effect.reply ptyReqT true] ∧
    handleRequest ptyWrapReq =
      some [Effect.sendResize { width := 4278190080, height := 1342177280 },
            Effect.reply ptyReqT true] := by
  constructor
  · have h := ptyreq_ack_forwards_trailing_dims ptyWitnessReq rfl 0 rfl (by decide)
    rw [h]
    rfl
  · have h := ptyreq_ack_forwards_trailing_dims ptyWrapReq rfl 255 rfl (by decide)
    rw [h]
    rfl

/-- C9 counterexample: the request queue consisting of one pty-allocate
request with an empty payload is drained, yet that request — whose kind is not
window-resize — receives no reply at all: the loop panics before `r.Reply`. -/
theorem dispatch_drained_request_without_reply :
    dispatch [ { reqType := ptyReqT, payload := [] } ] =
      DispatchResult.panicked [] ∧
    replyEffects (dispatchEffects
      (dispatch [ { reqType := ptyReqT, payload := [] } ])) = [] :=
  ⟨rfl, rfl⟩

/-- C9 amended: over a whole request queue in which every pty-allocate payload
is long enough for the loop's indexing (byte 3 exists and the wrapped slice
offset `(payload[3] + 4) mod 256` stays within the payload), the dispatcher
finishes and the reply stream contains exactly one reply per request, in
arrival order, except for window-resize requests, which get none;
unrecognized kinds are declined (`replyVal` is false for them). -/
theorem dispatch_one_reply_per_request (rs : List Request)
    (h : ∀ r ∈ rs, ptyWellFormed r = true) :
    ∃ es, dispatch rs = DispatchResult.finished es ∧
      replyEffects es =
        rs.filterMap fun r =>
          if r.reqType = windowChangeT then none
          else some (r.reqType, replyVal r) := by
  induction rs with
  | nil => exact ⟨[], rfl, rfl⟩
  | cons r rs ih =>
    obtain ⟨es1, he1, hr1⟩ :=
      handleRequest_wellformed r (h r (List.mem_cons_self r rs))
    obtain ⟨es2, he2, hr2⟩ := ih fun x hx => h x (List.mem_cons_of_mem _ hx)
    refine ⟨es1 ++ es2, ?_, ?_⟩
    · simp [dispatch, he1, he2]
    · have happ : replyEffects (es1 ++ es2) =
          replyEffects es1 ++ replyEffects es2 := by
        simp [replyEffects]
      rw [happ, hr1, hr2, List.filterMap_cons]
      by_cases hw : r.reqType = windowChangeT
      · simp [hw]
      · simp [hw]

/-- Witness for C9's amended theorem: a shell, a well-formed pty-req, a
window-change and an unknown request yield exactly three replies. -/
theorem dispatch_one_reply_per_request_witness :
    replyEffects (dispatchEffects (dispatch wReqs)) =
      [(shellT, true), (ptyReqT, true), (execT, false)] := by
  obtain ⟨es, he, hr⟩ := dispatch_one_reply_per_request wReqs (by decide)
  rw [he]
  simp only [dispatchEffects]
  rw [hr]
  rfl

/-- C4: on every connection that completed the handshake, at most one channel
is ever accepted, and every offer after the first is handed to the rejection
goroutine, which rejects it with the prohibited reason whatever type it
declares. -/
theorem at_most_one_channel_rest_prohibited (s : Server) (c : ConnInput)
    (h : c.handshakeOk = true) :
    (handle s c).accepted.length ≤ 1 ∧
    ∀ o ∈ c.offers.drop 1,
      Effect.rejectProhibited o.chanType ∈ (handle s c).rejectorEffects := by
  refine ⟨handle_accepted_le s c, fun o ho => ?_⟩
  rw [handle_rejector s c h]
  exact List.mem_map_of_mem _ ho

/-- Witness for C4 on a connection offering three channels, the third of a
non-session type. -/
theorem at_most_one_channel_rest_prohibited_witness :
    (handle wServer wConn).accepted.length ≤ 1 ∧
    Effect.rejectProhibited directT ∈ (handle wServer wConn).rejectorEffects := by
  obtain ⟨h1, h2⟩ := at_most_one_channel_rest_prohibited wServer wConn rfl
  exact ⟨h1, h2 { chanType := directT } (by decide)⟩

/-- C6: a first channel of a non-"session" type is rejected with the
unknown-channel-type reason, the transport connection is closed, and no
session is created, registered or published. -/
theorem non_session_first_channel_fatal (s : Server) (c : ConnInput)
    (first : ChannelOffer) (rest : List ChannelOffer) (h : c.handshakeOk = true)
    (h2 : c.offers = first :: rest) (h3 : first.chanType ≠ sessionT) :
    (handle s c).outcome = Outcome.rejectedNonSession ∧
    (handle s c).effects =
      [Effect.discardGlobalReqs, Effect.rejectUnknownType first.chanType,
       Effect.closeConn] ∧
    (handle s c).registry = s.onlinePlayers ∧
    (handle s c).dispatcherReqs = none ∧
    (handle s c).accepted = [] := by
  obtain ⟨hs, nm, kh, ip, offers, aok, reqs⟩ := c
  replace h : hs = true := h
  replace h2 : offers = first :: rest := h2
  subst h h2
  simp [handle, h3]

/-- Witness for C6 on a connection whose only offer is "direct-tcpip". -/
theorem non_session_first_channel_fatal_witness :
    (handle wServer nonSessConn).outcome = Outcome.rejectedNonSession ∧
    (handle wServer nonSessConn).effects =
      [Effect.discardGlobalReqs, Effect.rejectUnknownType directT,
       Effect.closeConn] ∧
    (handle wServer nonSessConn).registry = wServer.onlinePlayers ∧
    (handle wServer nonSessConn).dispatcherReqs = none ∧
    (handle wServer nonSessConn).accepted = [] :=
  non_session_first_channel_fatal wServer nonSessConn { chanType := directT } []
    rfl rfl (by decide)

/-- C7: when the non-blocking draw yields the sentinel 0, the handler writes
the plain full-game notice to the byte stream and closes the connection,
leaving the registry unchanged and handing nothing to the dispatcher. -/
theorem pool_empty_full_notice_and_close (s : Server) (c : ConnInput)
    (first : ChannelOffer) (rest : List ChannelOffer) (h : c.handshakeOk = true)
    (h2 : c.offers = first :: rest) (h3 : first.chanType = sessionT)
    (h4 : c.acceptOk = true) (h5 : drawId s.idPool = 0) :
    (handle s c).outcome = Outcome.gameFull ∧
    (handle s c).effects =
      [Effect.discardGlobalReqs, Effect.writeBytes fullMsg, Effect.closeConn] ∧
    (handle s c).registry = s.onlinePlayers ∧
    (handle s c).dispatcherReqs = none := by
  obtain ⟨hs, nm, kh, ip, offers, aok, reqs⟩ := c
  replace h : hs = true := h
  replace h2 : offers = first :: rest := h2
  replace h4 : aok = true := h4
  subst h h2 h4
  simp [handle, h3, h5]

/-- Witness for C7 on a server whose identity pool is empty. -/
theorem pool_empty_full_notice_and_close_witness :
    (handle emptyPoolServer sessConn).outcome = Outcome.gameFull ∧
    (handle emptyPoolServer sessConn).effects =
      [Effect.discardGlobalReqs, Effect.writeBytes fullMsg, Effect.closeConn] ∧
    (handle emptyPoolServer sessConn).registry = emptyPoolServer.onlinePlayers ∧
    (handle emptyPoolServer sessConn).dispatcherReqs = none :=
  pool_empty_full_notice_and_close emptyPoolServer sessConn
    { chanType := sessionT } [] rfl rfl rfl rfl rfl

/-- C10 counterexample: when the offer stream closes before any channel is
offered, `c := <-chans` yields a nil interface and `c.ChannelType()` on
server.go:118 dereferences it — the handler panics instead of being total. -/
theorem zero_offers_nil_dereference_panic :
    (handle wServer zeroOfferConn).outcome = Outcome.nilChannelPanic := rfl

/-- C10 amended: the per-connection handler is well-defined at the
channel-type query whenever at least one channel offer arrives before the
offer stream closes; in the zero-offer case it dereferences nil. -/
theorem handle_total_given_offer (s : Server) (c : ConnInput)
    (h : c.handshakeOk = true) (h2 : c.offers ≠ []) :
    (handle s c).outcome ≠ Outcome.nilChannelPanic := by
  obtain ⟨hs, nm, kh, ip, offers, aok, reqs⟩ := c
  replace h : hs = true := h
  subst h
  cases offers with
  | nil => exact absurd rfl h2
  | cons first rest =>
    simp only [handle]
    split_ifs <;> simp_all

/-- Witness for C10's amended theorem on a one-offer connection. -/
theorem handle_total_given_offer_witness :
    (handle wServer sessConn).outcome ≠ Outcome.nilChannelPanic :=
  handle_total_given_offer wServer sessConn rfl (by decide)

/-- C1: evaluation at a successfully admitted connection. `NewServer` leaves
the `newPlayers` hand-off channel uninitialized (its `make` is commented out,
server.go:44), so after inserting the Session into the registry under its
sanitized name the final `s.newPlayers <- p` (server.go:186) sends on a nil
channel and blocks forever: registration happens, the delivery promised by the
claim never does. -/
theorem admission_registers_but_never_publishes :
    (NewServer 2222 [7]).newPlayersInit = false ∧
    (handle (NewServer 2222 [7]) bobConn).outcome = Outcome.blockedOnPublish ∧
    (handle (NewServer 2222 [7]) bobConn).effects =
      [Effect.discardGlobalReqs, Effect.registerPlayer ("Bob".toList)] ∧
    (handle (NewServer 2222 [7]) bobConn).registry =
      [("Bob".toList,
        { id := 7, sshName := "Bob!!".toList, name := "Bob".toList,
          hash := "0f343b0931126a20f133d67c2b018a3b".toList })] :=
  ⟨rfl, rfl, rfl, rfl⟩
